import Mathlib

/-!
Shallow embedding of the RoutingTW repository (src/timewindow.py and
src/company.py) and verification of its specification claims.

The external OR-tools route solver is out of scope of the repository core
(the spec treats it as a black-box collaborator), so every function that
invokes it is parameterised by an abstract `solver : DataModel → Option Solution`.
Everything else is translated directly from the Python source.

Python exceptions (UnboundLocalError in `print_solution`, TypeError in
`engine`) are modelled with `Except String`; Python `None` with `Option`;
Python truthiness of an optional integer (None and 0 are falsy) with `truthy`.
-/

set_option autoImplicit false

namespace RoutingTW

/-- Constant MAX_VEHICLES from src/timewindow.py. -/
def MAX_VEHICLES : Int := 5

/-- Constant DOCK_NODE from src/timewindow.py. -/
def DOCK_NODE : Int := 4

/-- Constant DOCK_BEGIN from src/timewindow.py. -/
def DOCK_BEGIN : Int := 6

/-- Constant DOCK_END from src/timewindow.py. -/
def DOCK_END : Int := 20

/-- Constant DEPOT from src/timewindow.py. -/
def DEPOT : Int := 0

/-- Constant NUM_COMPANIES from src/timewindow.py. -/
def NUM_COMPANIES : Int := 4

/-- Constant MAX_DOCK_BEGIN from src/timewindow.py. -/
def MAX_DOCK_BEGIN : Int := 6

/-- Constant MAX_DOCK_END from src/timewindow.py. -/
def MAX_DOCK_END : Int := 20

/-- Python truthiness of an optional integer: `None` and `0` are falsy. -/
def truthy : Option Int → Bool
  | none => false
  | some v => v != 0

/-- One vehicle's route of a solver Solution, as read by `print_solution`:
the non-terminal stops, each a (location index, earliest arrival, latest
arrival) triple produced by `solution.Min`/`solution.Max` on the time
dimension, followed by the terminal stop's triple. -/
structure VehicleRoute where
  stops : List (Int × Int × Int)
  final : Int × Int × Int

/-- A feasible solution returned by the external solver: one route per
vehicle, in vehicle-id order. -/
structure Solution where
  routes : List VehicleRoute

/-- The dictionary built by `print_solution` (src/timewindow.py, lines 84-89).
The per-vehicle plan strings are modelled by the route data they print. -/
structure CompanyDict where
  num_vehicles : Int
  plan_output : List VehicleRoute
  total_time : Int
  dock_arrival : Int

/-- The Company entity from src/company.py with its class-level defaults. -/
structure Company where
  DEPOT : Int
  NUM_VEHICLES : Int := 0
  PLAN_OUTPUT : Option (List VehicleRoute) := none
  TOTAL_TIME : Int := 0
  DOCK_ARRIVAL : Option Int := none
  DOCK_BEGIN : Option Int := none
  DOCK_END : Option Int := none

/-- `Company.__init__` from src/company.py: only the depot is set. -/
def Company.init (depot : Int) : Company :=
  { DEPOT := depot }

/-- `Company.set_time_window` from src/company.py. -/
def Company.set_time_window (c : Company) (time_window : Int × Int) : Company :=
  { c with DOCK_BEGIN := some time_window.1, DOCK_END := some time_window.2 }

/-- `Company.set_company_dict` from src/company.py: on a present dict the four
result fields are copied; on `None` only an error line is printed and no
field is touched. -/
def Company.set_company_dict (c : Company) (company_dict : Option CompanyDict) : Company :=
  match company_dict with
  | some d =>
      { c with
        NUM_VEHICLES := d.num_vehicles
        TOTAL_TIME := d.total_time
        DOCK_ARRIVAL := some d.dock_arrival
        PLAN_OUTPUT := some d.plan_output }
  | none => c

/-- The data dictionary built by `create_data_model` (src/timewindow.py,
lines 28-53). The dock slot of `time_windows` receives whatever values the
company currently carries, so the entries are optional integers. -/
structure DataModel where
  time_matrix : List (List Int)
  time_windows : List (Option Int × Option Int)
  num_vehicles : Int
  depot : Int

/-- `create_data_model` from src/timewindow.py, lines 28-53. -/
def create_data_model (num_vehicles depot : Int) (dock_begin dock_end : Option Int) :
    DataModel :=
  { time_matrix := [
      [0, 6, 9, 8, 7, 3, 6, 2],
      [6, 0, 8, 3, 2, 6, 8, 4],
      [9, 8, 0, 11, 10, 6, 3, 9],
      [8, 3, 11, 0, 1, 7, 10, 6],
      [7, 2, 10, 1, 0, 6, 9, 4],
      [3, 6, 6, 7, 6, 0, 2, 3],
      [6, 8, 3, 10, 9, 2, 0, 6],
      [2, 4, 9, 6, 4, 3, 6, 0]],
    time_windows := [
      (some 6, some 20),
      (some 6, some 20),
      (some 6, some 20),
      (some 6, some 20),
      (dock_begin, dock_end),
      (some 6, some 20),
      (some 6, some 20),
      (some 6, some 20)],
    num_vehicles := num_vehicles,
    depot := depot }

/-- The per-stop assignment `if manager.IndexToNode(index) == DOCK_NODE:
dock_arrival = solution.Min(time_var)` from src/timewindow.py, line 71-72:
the earliest-arrival bound of a stop when the stop is the dock. -/
def pickDock (s : Int × Int × Int) : Option Int :=
  if s.1 = DOCK_NODE then some s.2.1 else none

/-- The effect of one vehicle's while-loop in `print_solution` on the
`dock_arrival` local: every dock stop overwrites it. -/
def routeDockArrival (acc : Option Int) (stops : List (Int × Int × Int)) : Option Int :=
  stops.foldl
    (fun a s =>
      match pickDock s with
      | some v => some v
      | none => a) acc

/-- `print_solution` from src/timewindow.py, lines 56-91. The loop over
vehicles accumulates `total_time` from the terminal stop of each route and
threads the `dock_arrival` local through every route. Reading the local
when no stop was the dock raises UnboundLocalError, modelled as
`Except.error`. -/
def print_solution (num_vehicles : Int) (solution : Solution) : Except String CompanyDict :=
  let st := solution.routes.foldl
    (fun (st : Int × Option Int) r =>
      (st.1 + r.final.2.1, routeDockArrival st.2 r.stops)) (0, none)
  match st.2 with
  | none => Except.error "UnboundLocalError: local variable dock_arrival referenced before assignment"
  | some t =>
      Except.ok
        { num_vehicles := num_vehicles
          plan_output := solution.routes
          total_time := st.1
          dock_arrival := t }

/-- `main` from src/timewindow.py, lines 94-166, parameterised by the
abstract external solver. The Python function retries itself with
`num_vehicles + 1` while `num_vehicles + 1 <= MAX_VEHICLES`; the `fuel`
argument only bounds that recursion for Lean and is chosen large enough
(`MAX_VEHICLES.toNat` in `main`) that the zero case is never reached from
the program's entry point (counts start at 1 and the guard stops at
`MAX_VEHICLES`). Besides the Python result the embedding also returns the
list of vehicle counts handed to the solver, in call order. -/
def main_go (solver : DataModel → Option Solution) (company : Company) :
    Nat → Int → Except String (Option CompanyDict) × List Int
  | fuel, num_vehicles =>
    let data := create_data_model num_vehicles company.DEPOT company.DOCK_BEGIN company.DOCK_END
    match solver data with
    | some solution =>
      match print_solution num_vehicles solution with
      | Except.ok company_dict => (Except.ok (some company_dict), [num_vehicles])
      | Except.error e => (Except.error e, [num_vehicles])
    | none =>
      if num_vehicles + 1 ≤ MAX_VEHICLES then
        match fuel with
        | 0 => (Except.ok none, [num_vehicles])
        | fuel' + 1 =>
          let r := main_go solver company fuel' (num_vehicles + 1)
          (r.1, num_vehicles :: r.2)
      else (Except.ok none, [num_vehicles])

/-- `main(company)` with its default argument `num_vehicles=1`. -/
def main (solver : DataModel → Option Solution) (company : Company) :
    Except String (Option CompanyDict) × List Int :=
  main_go solver company MAX_VEHICLES.toNat 1

/-- `time_window_factory` from src/timewindow.py, lines 168-186. The two
candidate bounds are optional integers and the branch conditions are the
Python truthiness tests of those locals; the bare `return` of the final
branch is `none`. -/
def time_window_factory (time_window : Int × Int) (time_split : Int) :
    Option (List (Int × Int)) :=
  let new_dock_begin : Option Int :=
    if time_split + 1 < MAX_DOCK_END then some (time_split + 1) else none
  let new_dock_end : Option Int :=
    if time_split - 1 > MAX_DOCK_BEGIN ∧ time_split - 1 > time_window.1 then
      some (time_split - 1)
    else none
  if truthy new_dock_begin && truthy new_dock_end then
    some [(time_window.1, new_dock_end.getD 0), (new_dock_begin.getD 0, time_window.2)]
  else if truthy new_dock_begin then
    some [(new_dock_begin.getD 0, time_window.2)]
  else if truthy new_dock_end then
    some [(time_window.1, new_dock_end.getD 0)]
  else
    none

/-- Python `list.pop()` on the window pool: removes and returns the last
element, raising (modelled as `none`) on an empty list. -/
def listPop (pool : List (Int × Int)) : Option ((Int × Int) × List (Int × Int)) :=
  match pool.getLast? with
  | none => none
  | some tw => some (tw, pool.dropLast)

/-- The per-company loop of `engine` from src/timewindow.py, lines 188-206,
parameterised by the abstract solver and generalised over the remaining
companies and the current pool. It returns the processed and untouched
companies in order together with the final pool, or the uncaught Python
exception that aborts the run: iterating `company.PLAN_OUTPUT` when it is
still `None` (line 202) and extending the pool with the `None` returned by
`time_window_factory` (line 205) both raise TypeError; an exception raised
inside `main` propagates. The empty-pool `except:` branch prints and
returns normally. -/
def engine_go (solver : DataModel → Option Solution) :
    List Company → List (Int × Int) → Except String (List Company × List (Int × Int))
  | [], pool => Except.ok ([], pool)
  | company :: rest, pool =>
    match listPop pool with
    | none => Except.ok (company :: rest, pool)
    | some (tw, pool1) =>
      let c1 := company.set_time_window tw
      match (main solver c1).1 with
      | Except.error e => Except.error e
      | Except.ok company_dict =>
        let c2 := c1.set_company_dict company_dict
        match c2.PLAN_OUTPUT with
        | none => Except.error "TypeError: NoneType object is not iterable"
        | some _ =>
          if truthy c2.DOCK_ARRIVAL then
            match time_window_factory tw (c2.DOCK_ARRIVAL.getD 0) with
            | none => Except.error "TypeError: unsupported operand for list and NoneType"
            | some ws =>
              match engine_go solver rest (pool1 ++ ws) with
              | Except.ok (cs, pool2) => Except.ok (c2 :: cs, pool2)
              | Except.error e => Except.error e
          else
            match engine_go solver rest pool1 with
            | Except.ok (cs, pool2) => Except.ok (c2 :: cs, pool2)
            | Except.error e => Except.error e

/-- `create_companies` from src/timewindow.py, lines 208-214. -/
def create_companies : List Company :=
  [Company.init 5, Company.init 0, Company.init 1, Company.init 3]

/-- `engine` from src/timewindow.py, lines 188-206: pool seeded with the
single window (DOCK_BEGIN, DOCK_END), companies from `create_companies`. -/
def engine (solver : DataModel → Option Solution) :
    Except String (List Company × List (Int × Int)) :=
  engine_go solver create_companies [(DOCK_BEGIN, DOCK_END)]

/-- The earliest-arrival bound at the last dock stop of one route, if any. -/
def stopsLastDock : List (Int × Int × Int) → Option Int
  | [] => none
  | s :: rest =>
    match stopsLastDock rest with
    | some v => some v
    | none => pickDock s

/-- The earliest-arrival bound at the last dock stop of a route list, routes
scanned in vehicle order: the value the `dock_arrival` local of
`print_solution` holds after the loop. -/
def routesLastDock : List VehicleRoute → Option Int
  | [] => none
  | r :: rest =>
    match routesLastDock rest with
    | some v => some v
    | none => stopsLastDock r.stops

/-- The sum over vehicles of the earliest-arrival bound at the terminal
stop: the value `total_time` holds after the loop of `print_solution`. -/
def totalFinal (routes : List VehicleRoute) : Int :=
  (routes.map fun r => r.final.2.1).sum

/-- Modelled from the spec: the first dock stop of one route, spec section
4.3 (the dock-arrival instant is the bound recorded the first time the dock
is visited). -/
def stopsFirstDock : List (Int × Int × Int) → Option Int
  | [] => none
  | s :: rest =>
    match pickDock s with
    | some v => some v
    | none => stopsFirstDock rest

/-- Modelled from the spec: the earliest-arrival bound recorded at the dock
location the first time it is visited by any vehicle, vehicles in order
(spec section 4.3). Used only to compare the spec reading of claim C5 with
what `print_solution` computes. -/
def firstDockArrival : List VehicleRoute → Option Int
  | [] => none
  | r :: rest =>
    match stopsFirstDock r.stops with
    | some v => some v
    | none => firstDockArrival rest

/-- The integer interval [n, k] as a list, empty when k < n. -/
def intSeqFrom (n k : Int) : List Int :=
  if h : n ≤ k then n :: intSeqFrom (n + 1) k else []
termination_by (k + 1 - n).toNat
decreasing_by omega

theorem intSeqFrom_cons {n k : Int} (h : n ≤ k) :
    intSeqFrom n k = n :: intSeqFrom (n + 1) k := by
  rw [intSeqFrom]
  simp [h]

theorem intSeqFrom_nil {n k : Int} (h : k < n) : intSeqFrom n k = [] := by
  rw [intSeqFrom]
  simp
  omega

theorem routeDockArrival_eq (stops : List (Int × Int × Int)) (acc : Option Int) :
    routeDockArrival acc stops =
      match stopsLastDock stops with
      | some v => some v
      | none => acc := by
  induction stops generalizing acc with
  | nil => rfl
  | cons s rest ih =>
    have hstep : routeDockArrival acc (s :: rest) =
        routeDockArrival (match pickDock s with | some v => some v | none => acc) rest := rfl
    rw [hstep, ih]
    cases hr : stopsLastDock rest <;> cases hp : pickDock s <;>
      simp [stopsLastDock, hr, hp]

theorem print_solution_fold (routes : List VehicleRoute) (a : Int) (acc : Option Int) :
    routes.foldl
        (fun (st : Int × Option Int) r =>
          (st.1 + r.final.2.1, routeDockArrival st.2 r.stops)) (a, acc) =
      (a + totalFinal routes,
       match routesLastDock routes with
       | some v => some v
       | none => acc) := by
  induction routes generalizing a acc with
  | nil =>
    simp [totalFinal, routesLastDock]
  | cons r rest ih =>
    rw [List.foldl_cons, ih, routeDockArrival_eq]
    refine Prod.ext ?_ ?_
    · simp [totalFinal]
      omega
    · simp only [routesLastDock]
      cases hr : routesLastDock rest <;> cases hs : stopsLastDock r.stops <;> simp

/-- Closed form of `print_solution`: it fails exactly when no stop of any
route is the dock, and otherwise returns the record holding the last dock
stop's earliest bound and the summed terminal bounds. -/
theorem print_solution_eq (num_vehicles : Int) (solution : Solution) :
    print_solution num_vehicles solution =
      match routesLastDock solution.routes with
      | none => Except.error "UnboundLocalError: local variable dock_arrival referenced before assignment"
      | some t =>
          Except.ok
            { num_vehicles := num_vehicles
              plan_output := solution.routes
              total_time := totalFinal solution.routes
              dock_arrival := t } := by
  unfold print_solution
  rw [print_solution_fold]
  cases h : routesLastDock solution.routes <;> simp

theorem print_solution_ok_num_vehicles {nv : Int} {sol : Solution} {d : CompanyDict}
    (h : print_solution nv sol = Except.ok d) : d.num_vehicles = nv := by
  rw [print_solution_eq] at h
  cases hr : routesLastDock sol.routes <;> rw [hr] at h <;> simp at h
  simp [← h]

/-- Characterisation of the escalation recursion of `main`: starting from
vehicle count `n` with enough fuel, the solver is called exactly on the
consecutive counts from `n` up to some `k ≤ MAX_VEHICLES`, every count
before `k` is infeasible, and the result is either the extraction of the
first feasible solution (found at count `k`) or the terminal failure
`Except.ok none` after the maximum count also proved infeasible. -/
theorem main_go_first_feasible (solver : DataModel → Option Solution) (company : Company) :
    ∀ (fuel : Nat) (n : Int), 1 ≤ n → n ≤ MAX_VEHICLES → MAX_VEHICLES ≤ n + (fuel : Int) →
      ∃ k : Int, n ≤ k ∧ k ≤ MAX_VEHICLES ∧
        (main_go solver company fuel n).2 = intSeqFrom n k ∧
        (∀ j : Int, n ≤ j → j < k →
          solver (create_data_model j company.DEPOT company.DOCK_BEGIN company.DOCK_END) = none) ∧
        ((∃ sol,
            solver (create_data_model k company.DEPOT company.DOCK_BEGIN company.DOCK_END) =
              some sol ∧
            (main_go solver company fuel n).1 = Except.map some (print_solution k sol)) ∨
         (k = MAX_VEHICLES ∧
          solver (create_data_model k company.DEPOT company.DOCK_BEGIN company.DOCK_END) = none ∧
          (main_go solver company fuel n).1 = Except.ok none)) := by
  have hM : MAX_VEHICLES = 5 := rfl
  intro fuel
  induction fuel with
  | zero =>
    intro n h1 h5 hf
    rcases hs : solver (create_data_model n company.DEPOT company.DOCK_BEGIN company.DOCK_END)
      with _ | sol
    · have e : main_go solver company 0 n = (Except.ok none, [n]) := by
        conv_lhs => rw [main_go]
        simp only [hs]
        split <;> rfl
      refine ⟨n, le_refl n, h5, ?_, ?_, Or.inr ⟨by omega, hs, by rw [e]⟩⟩
      · rw [e, intSeqFrom_cons (le_refl n), intSeqFrom_nil (by omega)]
      · intro j hj1 hjk
        omega
    · have e : main_go solver company 0 n =
          (Except.map some (print_solution n sol), [n]) := by
        conv_lhs => rw [main_go]
        simp only [hs]
        cases hp : print_solution n sol <;> simp [hp, Except.map]
      refine ⟨n, le_refl n, h5, ?_, ?_, Or.inl ⟨sol, hs, by rw [e]⟩⟩
      · rw [e, intSeqFrom_cons (le_refl n), intSeqFrom_nil (by omega)]
      · intro j hj1 hjk
        omega
  | succ f ih =>
    intro n h1 h5 hf
    rcases hs : solver (create_data_model n company.DEPOT company.DOCK_BEGIN company.DOCK_END)
      with _ | sol
    · by_cases hg : n + 1 ≤ MAX_VEHICLES
      · have e : main_go solver company (f + 1) n =
            ((main_go solver company f (n + 1)).1,
             n :: (main_go solver company f (n + 1)).2) := by
          conv_lhs => rw [main_go]
          simp only [hs]
          rw [if_pos hg]
        obtain ⟨k, hk1, hk5, hcalls, hinf, hres⟩ :=
          ih (n + 1) (by omega) hg (by push_cast at hf ⊢; omega)
        refine ⟨k, by omega, hk5, ?_, ?_, ?_⟩
        · rw [e]
          show n :: (main_go solver company f (n + 1)).2 = intSeqFrom n k
          rw [hcalls, ← intSeqFrom_cons (by omega)]
        · intro j hj1 hjk
          by_cases hjn : j = n
          · rw [hjn]
            exact hs
          · exact hinf j (by omega) hjk
        · rcases hres with ⟨sol', ha, hb⟩ | ⟨hk, ha, hb⟩
          · exact Or.inl ⟨sol', ha, by rw [e]; exact hb⟩
          · exact Or.inr ⟨hk, ha, by rw [e]; exact hb⟩
      · have e : main_go solver company (f + 1) n = (Except.ok none, [n]) := by
          conv_lhs => rw [main_go]
          simp only [hs]
          rw [if_neg hg]
        refine ⟨n, le_refl n, h5, ?_, ?_, Or.inr ⟨by omega, hs, by rw [e]⟩⟩
        · rw [e, intSeqFrom_cons (le_refl n), intSeqFrom_nil (by omega)]
        · intro j hj1 hjk
          omega
    · have e : main_go solver company (f + 1) n =
          (Except.map some (print_solution n sol), [n]) := by
        conv_lhs => rw [main_go]
        simp only [hs]
        cases hp : print_solution n sol <;> simp [hp, Except.map]
      refine ⟨n, le_refl n, h5, ?_, ?_, Or.inl ⟨sol, hs, by rw [e]⟩⟩
      · rw [e, intSeqFrom_cons (le_refl n), intSeqFrom_nil (by omega)]
      · intro j hj1 hjk
        omega

/-- A solution whose single route never stops at the dock node. -/
def solNoDock : Solution := ⟨[⟨[(1, 7, 8)], (0, 10, 10)⟩]⟩

/-- A solution in which vehicle 0 reaches the dock with earliest bound 7 and
vehicle 1 reaches it with earliest bound 9. -/
def solTwoDock : Solution := ⟨[⟨[(4, 7, 8)], (0, 20, 20)⟩, ⟨[(4, 9, 10)], (0, 21, 21)⟩]⟩

/-- A solver that reports infeasibility for every problem and vehicle count. -/
def solverNone : DataModel → Option Solution := fun _ => none

/-- A solution arriving at the dock with earliest bound 19. -/
def solDock19 : Solution := ⟨[⟨[(4, 19, 19)], (0, 20, 20)⟩]⟩

/-- A solver that always returns `solDock19`. -/
def solverDock19 : DataModel → Option Solution := fun _ => some solDock19

/-- A solution arriving at the dock with earliest bound 9, terminal bound 15. -/
def solDock9 : Solution := ⟨[⟨[(4, 9, 9)], (0, 15, 15)⟩]⟩

/-- A solver that always returns `solDock9`. -/
def solverDock9 : DataModel → Option Solution := fun _ => some solDock9

/-- Membership characterisation of the windows returned by
`time_window_factory`: every returned window is either the left successor
(begin, t - 1), returned only under the left-candidate guard of line 174, or
the right successor (t + 1, end), returned only under the truthy right
candidate of line 172. -/
theorem time_window_factory_mem {tw : Int × Int} {ts : Int} {w : Int × Int}
    (hw : w ∈ (time_window_factory tw ts).getD []) :
    (w = (tw.1, ts - 1) ∧ ts - 1 > MAX_DOCK_BEGIN ∧ ts - 1 > tw.1) ∨
    (w = (ts + 1, tw.2) ∧ ts + 1 < MAX_DOCK_END ∧ ts + 1 ≠ 0) := by
  unfold time_window_factory truthy at hw
  split_ifs at hw
  all_goals simp_all
  all_goals try (split_ifs at hw <;> simp_all)

/-- C1 counterexample: the consumed window (6, 12) with dock-arrival instant
12 satisfies the claim's hypotheses (begin ≤ end, begin ≤ t ≤ end), yet
`time_window_factory` returns the successor window (13, 12) whose begin is
strictly greater than its end: the right candidate t + 1 is only compared
with the domain bound MAX_DOCK_END = 20, never with the consumed window's
own end. -/
theorem C1_counterexample :
    (6 : Int) ≤ 12 ∧ (6 : Int) ≤ 12 ∧ (12 : Int) ≤ 12 ∧
    time_window_factory (6, 12) 12 = some [(6, 11), (13, 12)] ∧
    ∃ w ∈ (time_window_factory (6, 12) 12).getD [], w.2 < w.1 := by decide

/-- C1 (amended): for every consumed window (begin, end) and dock-arrival
instant t with begin ≤ t strictly below end, every window returned by
`time_window_factory` satisfies begin ≤ end; the invariant fails only when
t equals the consumed window's end (as in `C1_counterexample`). -/
theorem C1_amended_no_inverted_window (b e t : Int) (hbt : b ≤ t) (hte : t < e) :
    ∀ w ∈ (time_window_factory (b, e) t).getD [], w.1 ≤ w.2 := by
  intro w hw
  rcases time_window_factory_mem hw with ⟨rfl, hc⟩ | ⟨rfl, hc⟩ <;> simp <;> omega

/-- C1 witness: the amended theorem applied to the window (6, 12) with
arrival instant 9. -/
theorem C1_amended_no_inverted_window_witness :
    (6 : Int) ≤ 9 ∧ (9 : Int) < 12 ∧
    ∀ w ∈ (time_window_factory (6, 12) 9).getD [], w.1 ≤ w.2 :=
  ⟨by decide, by decide, C1_amended_no_inverted_window 6 12 9 (by decide) (by decide)⟩

/-- C2: on a feasible solution in which no vehicle visits the dock node,
`print_solution` does not report the arrival as absent and return a record:
the local `dock_arrival` is assigned only inside the dock branch, so reading
it at line 88 raises UnboundLocalError and the call fails. -/
theorem C2_dock_unvisited_raises :
    (∀ r ∈ solNoDock.routes, ∀ s ∈ r.stops, s.1 ≠ DOCK_NODE) ∧
    print_solution 1 solNoDock =
      Except.error "UnboundLocalError: local variable dock_arrival referenced before assignment" :=
  ⟨by decide, rfl⟩

/-- C3: when escalation ends in terminal failure (`main` returns None), the
engine does not continue with the next company: `set_company_dict(None)`
leaves PLAN_OUTPUT as None, and the loop `for plan_output in
company.PLAN_OUTPUT` then raises TypeError, aborting the whole run. -/
theorem C3_escalation_exhausted_aborts_run :
    (main solverNone ((Company.init 5).set_time_window (6, 20))).1 = Except.ok none ∧
    engine solverNone = Except.error "TypeError: NoneType object is not iterable" :=
  ⟨rfl, rfl⟩

/-- C4: when neither successor candidate is usable, `time_window_factory`
returns None (a bare return), not an empty list, and the engine then aborts
with a TypeError on `time_windows += None` instead of proceeding to the next
company: shown on the consumed window (18, 20) with dock arrival 19. -/
theorem C4_neither_usable_returns_none_and_aborts :
    time_window_factory (18, 20) 19 = none ∧
    engine_go solverDock19 [Company.init 0] [(18, 20)] =
      Except.error "TypeError: unsupported operand for list and NoneType" :=
  ⟨rfl, rfl⟩

/-- C5 counterexample: in a solution where vehicle 0 first reaches the dock
with earliest bound 7 and vehicle 1 later reaches it with earliest bound 9,
the dock-arrival instant the claim prescribes (first visit) is 7, but
`print_solution` reports 9: the assignment at line 72 overwrites
`dock_arrival` on every dock visit, so the last visit wins. -/
theorem C5_counterexample :
    firstDockArrival solTwoDock.routes = some 7 ∧
    print_solution 2 solTwoDock =
      Except.ok
        { num_vehicles := 2, plan_output := solTwoDock.routes,
          total_time := 41, dock_arrival := 9 } ∧
    (9 : Int) ≠ 7 :=
  ⟨rfl, rfl, by decide⟩

/-- C5 (amended): for every feasible solution on which `print_solution`
succeeds, the reported dock-arrival instant is the earliest-arrival bound
recorded at the dock the LAST time it is visited (vehicles scanned in id
order, stops in route order) — which coincides with the first visit whenever
the dock is visited at most once — and the reported total elapsed time is
the sum over vehicles of the earliest-arrival bound at the terminal node. -/
theorem C5_amended_extractor (num_vehicles : Int) (solution : Solution) (d : CompanyDict)
    (h : print_solution num_vehicles solution = Except.ok d) :
    routesLastDock solution.routes = some d.dock_arrival ∧
    d.total_time = totalFinal solution.routes := by
  rw [print_solution_eq] at h
  cases hr : routesLastDock solution.routes <;> rw [hr] at h
  · exact absurd h (by simp)
  · simp only [Except.ok.injEq] at h
    subst h
    exact ⟨rfl, rfl⟩

/-- C5 witness: the amended theorem applied to the two-dock-visit solution. -/
theorem C5_amended_extractor_witness :
    routesLastDock solTwoDock.routes =
      some (CompanyDict.dock_arrival
        { num_vehicles := 2, plan_output := solTwoDock.routes,
          total_time := 41, dock_arrival := 9 }) ∧
    CompanyDict.total_time
        { num_vehicles := 2, plan_output := solTwoDock.routes,
          total_time := 41, dock_arrival := 9 } =
      totalFinal solTwoDock.routes :=
  C5_amended_extractor 2 solTwoDock
    { num_vehicles := 2, plan_output := solTwoDock.routes,
      total_time := 41, dock_arrival := 9 } rfl

/-- C6: for every solver and company, `main` attempts vehicle counts
starting at 1 and increasing by 1 up to some k ≤ MAX_VEHICLES = 5 (so it
never attempts a count below 1 or above 5 and issues at most 5 solver
calls), every count before k is infeasible, and either k is the first
feasible count — the result is the extraction of that solution and carries
vehicle count k — or all counts up to the maximum are infeasible and the
terminal failure signal `none` is returned; termination holds because
`main` is a total function. -/
theorem C6_escalation_controller (solver : DataModel → Option Solution) (company : Company) :
    ∃ k : Int, 1 ≤ k ∧ k ≤ MAX_VEHICLES ∧
      (main solver company).2 = intSeqFrom 1 k ∧
      (∀ j : Int, 1 ≤ j → j < k →
        solver (create_data_model j company.DEPOT company.DOCK_BEGIN company.DOCK_END) = none) ∧
      ((∃ sol,
          solver (create_data_model k company.DEPOT company.DOCK_BEGIN company.DOCK_END) =
            some sol ∧
          (main solver company).1 = Except.map some (print_solution k sol) ∧
          ∀ d, (main solver company).1 = Except.ok (some d) → d.num_vehicles = k) ∨
       (k = MAX_VEHICLES ∧
        solver (create_data_model k company.DEPOT company.DOCK_BEGIN company.DOCK_END) = none ∧
        (main solver company).1 = Except.ok none)) := by
  obtain ⟨k, hk1, hk5, hcalls, hinf, hres⟩ :=
    main_go_first_feasible solver company MAX_VEHICLES.toNat 1 (by decide) (by decide) (by decide)
  refine ⟨k, hk1, hk5, hcalls, hinf, ?_⟩
  rcases hres with ⟨sol, ha, hb⟩ | hr
  · refine Or.inl ⟨sol, ha, hb, ?_⟩
    intro d hd
    have hb' : (main solver company).1 = Except.map some (print_solution k sol) := hb
    rw [hb'] at hd
    cases hp : print_solution k sol <;> rw [hp] at hd <;> simp [Except.map] at hd
    rw [← hd]
    exact print_solution_ok_num_vehicles hp
  · exact Or.inr hr

/-- C6 witness: the theorem applied to the always-infeasible solver and the
first created company. -/
theorem C6_escalation_controller_witness :
    ∃ k : Int, 1 ≤ k ∧ k ≤ MAX_VEHICLES ∧
      (main solverNone (Company.init 5)).2 = intSeqFrom 1 k ∧
      (∀ j : Int, 1 ≤ j → j < k →
        solverNone (create_data_model j (Company.init 5).DEPOT (Company.init 5).DOCK_BEGIN
          (Company.init 5).DOCK_END) = none) ∧
      ((∃ sol,
          solverNone (create_data_model k (Company.init 5).DEPOT (Company.init 5).DOCK_BEGIN
            (Company.init 5).DOCK_END) = some sol ∧
          (main solverNone (Company.init 5)).1 = Except.map some (print_solution k sol) ∧
          ∀ d, (main solverNone (Company.init 5)).1 = Except.ok (some d) → d.num_vehicles = k) ∨
       (k = MAX_VEHICLES ∧
        solverNone (create_data_model k (Company.init 5).DEPOT (Company.init 5).DOCK_BEGIN
          (Company.init 5).DOCK_END) = none ∧
        (main solverNone (Company.init 5)).1 = Except.ok none)) :=
  C6_escalation_controller solverNone (Company.init 5)

/-- C7 (Scenario A): `time_window_factory` on the window (6, 12) with dock
arrival 9 and the fixed buffer 1 returns exactly [(6, 8), (10, 12)], and the
engine pushes both onto the pool: a one-company run consuming (6, 12) with
arrival 9 ends with exactly those two windows in the pool. -/
theorem C7_scenario_a :
    time_window_factory (6, 12) 9 = some [(6, 8), (10, 12)] ∧
    engine_go solverDock9 [Company.init 0] [(6, 12)] =
      Except.ok
        ([{ DEPOT := 0, NUM_VEHICLES := 1, PLAN_OUTPUT := some solDock9.routes,
            TOTAL_TIME := 15, DOCK_ARRIVAL := some 9,
            DOCK_BEGIN := some 6, DOCK_END := some 12 }],
         [(6, 8), (10, 12)]) :=
  ⟨rfl, rfl⟩

/-- C8: whenever the engine reaches a company while the window pool is
empty, it returns normally (no error): the remaining companies are left
exactly as they are — no window assigned, no result recorded — and the run
stops. -/
theorem C8_pool_exhausted_clean_stop (solver : DataModel → Option Solution)
    (company : Company) (rest : List Company) :
    engine_go solver (company :: rest) [] = Except.ok (company :: rest, []) := rfl

/-- C9: the engine is deterministic: two runs with identical solvers,
identical company lists and identical initial pools produce identical
results (hence identical per-company outcomes and failure markers). -/
theorem C9_engine_deterministic (solver1 solver2 : DataModel → Option Solution)
    (companies1 companies2 : List Company) (pool1 pool2 : List (Int × Int))
    (hs : solver1 = solver2) (hc : companies1 = companies2) (hp : pool1 = pool2) :
    engine_go solver1 companies1 pool1 = engine_go solver2 companies2 pool2 := by
  rw [hs, hc, hp]

/-- C9 witness: the determinism theorem applied to two identical concrete
runs. -/
theorem C9_engine_deterministic_witness :
    engine_go (fun _ => none) create_companies [(DOCK_BEGIN, DOCK_END)] =
      engine_go (fun _ => none) create_companies [(DOCK_BEGIN, DOCK_END)] :=
  C9_engine_deterministic (fun _ => none) (fun _ => none) create_companies create_companies
    [(DOCK_BEGIN, DOCK_END)] [(DOCK_BEGIN, DOCK_END)] rfl rfl rfl

/-- C10: `set_company_dict` with the absent (None) result leaves every field
of the company — the four result fields, the depot and the assigned window —
unchanged: the error branch performs no mutation at all. -/
theorem C10_set_company_dict_none_frame (c : Company) :
    c.set_company_dict none = c ∧
    (c.set_company_dict none).NUM_VEHICLES = c.NUM_VEHICLES ∧
    (c.set_company_dict none).TOTAL_TIME = c.TOTAL_TIME ∧
    (c.set_company_dict none).DOCK_ARRIVAL = c.DOCK_ARRIVAL ∧
    (c.set_company_dict none).PLAN_OUTPUT = c.PLAN_OUTPUT ∧
    (c.set_company_dict none).DEPOT = c.DEPOT ∧
    (c.set_company_dict none).DOCK_BEGIN = c.DOCK_BEGIN ∧
    (c.set_company_dict none).DOCK_END = c.DOCK_END :=
  ⟨rfl, rfl, rfl, rfl, rfl, rfl, rfl, rfl⟩

end RoutingTW
